import Mathlib

/-!
Shallow embedding of `src/script.js`: a static futsal-tournament page script.
The script holds a constant catalog of match records (`matchesData`), renders
match cards into a container (`loadMatches`), shows and hides a detail modal
(`showMatchDetails`, `closeModal`), and runs a per-second countdown
(`startCountdown` and its tick callback, modelled as `countdownTick`).

DOM modelling: the elements the script touches are modelled as `Option`-valued
fields of a `Dom` record (`none` = the element is absent from the document).
Operations return `Except ScriptState ScriptState`: `.ok` is normal return,
`.error` is an uncaught exception (a JavaScript `TypeError` from dereferencing
a `null` returned by `getElementById`), carrying the DOM state at the throw.
The module-level `const matchesData` is carried as a state field initialised
to the constant, so that (non-)mutation of the catalog is expressible.
-/

/-- One record of the static match catalog (fields as in the object literals
of `src/script.js` lines 2-35). -/
structure MatchRecord where
  id : Nat
  teams : String
  date : String
  time : String
  description : String
  liveStreamLink : String
deriving Repr, DecidableEq

/-- The static catalog `matchesData` of `src/script.js`, verbatim. -/
def matchesData : List MatchRecord :=
  [ { id := 1,
      teams := "تیم الف vs تیم ب",
      date := "۱۴۰۴/۰۱/۱۰",
      time := "۲۱:۰۰",
      description := "بازی افتتاحیه بین تیم الف و تیم ب. انتظار می‌رود بازی جذاب و پرتماشاگری باشد.",
      liveStreamLink := "https://www.youtube.com/embed/dQw4w9WgXcQ" },
    { id := 2,
      teams := "تیم ج vs تیم د",
      date := "۱۴۰۴/۰۱/۱۱",
      time := "۲۲:۳۰",
      description := "بازی حساس مرحله مقدماتی با حضور بازیکنان سرشناس هر دو تیم.",
      liveStreamLink := "https://www.aparat.com/v/xxxxx" },
    { id := 3,
      teams := "تیم ه vs تیم و",
      date := "۱۴۰۴/۰۱/۱۲",
      time := "۲۳:۰۰",
      description := "مصاف تماشایی بین تیم ه و تیم و که هر دو مدعی قهرمانی هستند.",
      liveStreamLink := "https://www.youtube.com/embed/dQw4w9WgXcQ" },
    { id := 4,
      teams := "تیم ز vs تیم ی",
      date := "۱۴۰۴/۰۱/۱۳",
      time := "۲۱:۳۰",
      description := "این مسابقه یکی از مهم‌ترین بازی‌های مرحله یک‌چهارم نهایی محسوب می‌شود.",
      liveStreamLink := "https://www.youtube.com/embed/dQw4w9WgXcQ" } ]

/-- A rendered match card: `div.match-card` with its `innerHTML` string and
the match id bound to the details-button click handler
(`detailsBtn.addEventListener` closes over `match.id`). -/
structure Card where
  className : String
  innerHTML : String
  detailsOnClick : Nat
deriving Repr, DecidableEq

/-- The card `innerHTML` template literal of `loadMatches`
(`src/script.js` lines 53-58), with the three interpolations spliced in. -/
def cardHTML (m : MatchRecord) : String :=
  "\n      <h3>" ++ m.teams ++ "</h3>\n      <p><strong>تاریخ:</strong> "
    ++ m.date ++ "</p>\n      <p><strong>ساعت:</strong> " ++ m.time
    ++ "</p>\n      <a href=\"javascript:void(0)\" class=\"btn-match-details\">جزئیات</a>\n    "

/-- Building one card in the `forEach` body of `loadMatches`:
`className = "match-card"`, the `innerHTML` template, and the click handler
bound to `match.id`. -/
def renderCard (m : MatchRecord) : Card :=
  { className := "match-card", innerHTML := cardHTML m, detailsOnClick := m.id }

/-- The modal-content `innerHTML` template literal of `showMatchDetails`
(`src/script.js` lines 81-94), with the five interpolations spliced in. -/
def detailsHTML (m : MatchRecord) : String :=
  "\n    <h2>" ++ m.teams ++ "</h2>\n    <p><strong>تاریخ:</strong> "
    ++ m.date ++ "</p>\n    <p><strong>ساعت:</strong> " ++ m.time
    ++ "</p>\n    <p>" ++ m.description
    ++ "</p>\n    <h3>پخش زنده</h3>\n    <iframe \n      src=\"" ++ m.liveStreamLink
    ++ "\" \n      width=\"100%\" \n      height=\"360\" \n      allowfullscreen>\n    </iframe>\n  "

/-- The terminal countdown message written when the target has passed
(`src/script.js` line 126). -/
def startedMessage : String := "<p>بازی شروع شده است!</p>"

/-- The DOM elements the script touches. Each field is `none` when
`getElementById` would return `null` (the element is absent), otherwise
`some` of the element content the script reads or writes:
children of `#matches-container` as a card list, `innerHTML` of
`#match-details` and `#countdown-timer`, `style.display` of `#match-modal`,
`textContent` of `#days`, `#hours`, `#minutes`, `#seconds`. -/
structure Dom where
  matchesContainer : Option (List Card)
  matchDetails : Option String
  matchModal : Option String
  countdownTimer : Option String
  days : Option String
  hours : Option String
  minutes : Option String
  seconds : Option String
deriving Repr, DecidableEq

/-- Script state: the module-level `const matchesData` binding and the DOM.
The catalog is a state field (initialised to the constant) so that theorems
can express that no operation ever writes to it. -/
structure ScriptState where
  matchesData : List MatchRecord
  dom : Dom
deriving Repr, DecidableEq

/-- `loadMatches` (`src/script.js` lines 40-67): if `#matches-container` is
absent, return; otherwise clear it (`innerHTML = ""`) and append one card per
catalog record, in catalog order. The `querySelector(".btn-match-details")`
always finds the button just written into the card HTML, so no throw occurs. -/
def loadMatches (s : ScriptState) : Except ScriptState ScriptState :=
  match s.dom.matchesContainer with
  | none => .ok s
  | some _ =>
    let cleared : List Card := []
    let cards := s.matchesData.foldl (fun acc m => acc ++ [renderCard m]) cleared
    .ok { s with dom := { s.dom with matchesContainer := some cards } }

/-- `showMatchDetails` (`src/script.js` lines 73-98): look the id up with
`find`; if absent, return. Otherwise set `#match-details` `innerHTML` (throws
a `TypeError` if that element is absent) and then set `#match-modal` display
to `"block"` (throws if that element is absent, after the content write). -/
def showMatchDetails (matchId : Nat) (s : ScriptState) : Except ScriptState ScriptState :=
  match s.matchesData.find? (fun m => m.id == matchId) with
  | none => .ok s
  | some m =>
    match s.dom.matchDetails with
    | none => .error s
    | some _ =>
      let s1 : ScriptState := { s with dom := { s.dom with matchDetails := some (detailsHTML m) } }
      match s1.dom.matchModal with
      | none => .error s1
      | some _ => .ok { s1 with dom := { s1.dom with matchModal := some "block" } }

/-- `closeModal` (`src/script.js` lines 103-108): set `#match-modal` display
to `"none"` (throws a `TypeError` if the element is absent), then clear
`#match-details` `innerHTML` (throws if that element is absent). -/
def closeModal (s : ScriptState) : Except ScriptState ScriptState :=
  match s.dom.matchModal with
  | none => .error s
  | some _ =>
    let s1 : ScriptState := { s with dom := { s.dom with matchModal := some "none" } }
    match s1.dom.matchDetails with
    | none => .error s1
    | some _ => .ok { s1 with dom := { s1.dom with matchDetails := some "" } }

/-- Countdown timer state: whether the `setInterval` handle is still active
(not yet cleared by `clearInterval`), plus the script state. -/
structure CountdownState where
  intervalActive : Bool
  state : ScriptState
deriving Repr, DecidableEq

/-- `startCountdown` (`src/script.js` lines 114-139), up to scheduling: if
`#countdown-timer` is absent, return without scheduling (result `none`);
otherwise schedule the repeating tick (result `some` of the initial timer
state). The date string is parsed outside this model; the parsed instant
`endDate` is passed to each `countdownTick`. -/
def startCountdown (endDate : Int) (s : ScriptState) : Option CountdownState :=
  match s.dom.countdownTimer with
  | none => none
  | some _ => some { intervalActive := true, state := s }

/-- One tick of the `setInterval` callback in `startCountdown`
(`src/script.js` lines 120-138), at wall-clock instant `now`. A cleared
interval never fires again, modelled by the identity on inactive states.
`distance < 0` clears the interval and writes the terminal message into the
captured `countdownElement` (non-null whenever the timer was scheduled).
Otherwise the four components are computed by `Math.floor` division and
written to `#days`, `#hours`, `#minutes`, `#seconds` in that order; each
write throws a `TypeError` if its element is absent, leaving the earlier
writes in place. -/
def countdownTick (endDate now : Int) (c : CountdownState) :
    Except CountdownState CountdownState :=
  if c.intervalActive = false then .ok c
  else
    let distance : Int := endDate - now
    if distance < 0 then
      .ok { intervalActive := false,
            state := { c.state with
              dom := { c.state.dom with countdownTimer := some startedMessage } } }
    else
      let days := distance / (1000 * 60 * 60 * 24)
      let hours := (distance % (1000 * 60 * 60 * 24)) / (1000 * 60 * 60)
      let minutes := (distance % (1000 * 60 * 60)) / (1000 * 60)
      let seconds := (distance % (1000 * 60)) / 1000
      match c.state.dom.days with
      | none => .error c
      | some _ =>
        let d1 : Dom := { c.state.dom with days := some (toString days) }
        match d1.hours with
        | none => .error { c with state := { c.state with dom := d1 } }
        | some _ =>
          let d2 : Dom := { d1 with hours := some (toString hours) }
          match d2.minutes with
          | none => .error { c with state := { c.state with dom := d2 } }
          | some _ =>
            let d3 : Dom := { d2 with minutes := some (toString minutes) }
            match d3.seconds with
            | none => .error { c with state := { c.state with dom := d3 } }
            | some _ =>
              .ok { c with state := { c.state with
                dom := { d3 with seconds := some (toString seconds) } } }

/-- The close-button click handler wired on `DOMContentLoaded`
(`src/script.js` lines 142-147): it calls `closeModal`. -/
def onCloseButtonClick (s : ScriptState) : Except ScriptState ScriptState :=
  closeModal s

/-- The modal backdrop click handler wired on `DOMContentLoaded`
(`src/script.js` lines 149-156): calls `closeModal` only when the event
target is the modal element itself. -/
def onModalClick (targetIsModal : Bool) (s : ScriptState) : Except ScriptState ScriptState :=
  if targetIsModal then closeModal s else .ok s

/-- The details-button click handler attached in `loadMatches`
(`src/script.js` lines 61-64): calls `showMatchDetails` with the bound id. -/
def onDetailsClick (card : Card) (s : ScriptState) : Except ScriptState ScriptState :=
  showMatchDetails card.detailsOnClick s

/-- Project the script state out of an operation result, whether the
operation returned normally or threw. -/
def resultState : Except ScriptState ScriptState → ScriptState
  | .ok s => s
  | .error s => s

/-- Project the countdown state out of a tick result, whether the tick
returned normally or threw. -/
def tickResultState : Except CountdownState CountdownState → CountdownState
  | .ok c => c
  | .error c => c

/-- The state after `startCountdown`, which changes no DOM and either
schedules the timer or does nothing. -/
def startCountdownState (endDate : Int) (s : ScriptState) : ScriptState :=
  match startCountdown endDate s with
  | none => s
  | some c => c.state

/-- A card displays a record when its `innerHTML` contains the record's
teams label, date and time, in that order. -/
def displaysRecord (k : Card) (m : MatchRecord) : Prop :=
  ∃ a b c d : String, k.innerHTML = a ++ m.teams ++ b ++ m.date ++ c ++ m.time ++ d

/-- A detail-content string shows a record when it contains the record's
teams, date, time, description and stream link, in that order. -/
def showsRecord (html : String) (m : MatchRecord) : Prop :=
  ∃ a b c d e f : String,
    html = a ++ m.teams ++ b ++ m.date ++ c ++ m.time ++ d
      ++ m.description ++ e ++ m.liveStreamLink ++ f

/-- A fully-populated DOM, used as a concrete page for witnesses. -/
def fullDom : Dom :=
  { matchesContainer := some [], matchDetails := some "", matchModal := some "none",
    countdownTimer := some "", days := some "", hours := some "",
    minutes := some "", seconds := some "" }

/-- A DOM with every element absent, used for concrete missing-element inputs. -/
def emptyDom : Dom :=
  { matchesContainer := none, matchDetails := none, matchModal := none,
    countdownTimer := none, days := none, hours := none,
    minutes := none, seconds := none }

/-- The page state at startup: the constant catalog and a full page. -/
def initState : ScriptState := { matchesData := matchesData, dom := fullDom }

/-- A startup state on a page missing every scripted element. -/
def bareState : ScriptState := { matchesData := matchesData, dom := emptyDom }

/-- An active countdown timer over the startup state, for concrete runs. -/
def runState : CountdownState := { intervalActive := true, state := initState }

/-- The integer `q` is the rounded-down quotient of `a` by `b` (the floor of
the exact quotient, for a nonnegative dividend): no rounding up occurs. -/
def floorDivOf (q a b : Int) : Prop := 0 ≤ q ∧ q * b ≤ a ∧ a < (q + 1) * b

/-- Folding card-appends from the left is mapping `renderCard`, which is how
`loadMatches` builds the container children. -/
theorem foldl_append_eq_map (l : List MatchRecord) (acc : List Card) :
    l.foldl (fun a m => a ++ [renderCard m]) acc = acc ++ l.map renderCard := by
  induction l generalizing acc with
  | nil => simp
  | cons m t ih => simp [List.foldl_cons, ih]

/-- With pairwise-distinct ids, `find` returns exactly the member carrying
the requested id. -/
theorem find?_eq_some_of_mem_nodup (l : List MatchRecord) (m : MatchRecord) (matchId : Nat)
    (hm : m ∈ l) (hid : m.id = matchId) (hnd : (l.map MatchRecord.id).Nodup) :
    l.find? (fun r => r.id == matchId) = some m := by
  induction l with
  | nil => cases hm
  | cons a t ih =>
    rcases List.mem_cons.mp hm with rfl | hmt
    · exact List.find?_cons_of_pos _ (by simp [hid])
    · have hnd' : (∀ x ∈ t, ¬ x.id = a.id) ∧ (t.map MatchRecord.id).Nodup := by
        simpa using hnd
      have hne : a.id ≠ matchId := fun hEq => hnd'.1 m hmt (hid.trans hEq.symm)
      rw [List.find?_cons_of_neg _ (by simp [hne])]
      exact ih hmt hnd'.2

/-- Claim C1: for every catalog and a present container, `loadMatches`
produces exactly one card per record in the container, in catalog order,
each card displaying the record's teams, date and time. -/
theorem loadMatches_renders_catalog (s : ScriptState)
    (h : s.dom.matchesContainer.isSome = true) :
    ∃ s2, loadMatches s = .ok s2 ∧
      s2.dom.matchesContainer = some (s.matchesData.map renderCard) ∧
      (s.matchesData.map renderCard).length = s.matchesData.length ∧
      (∀ i : Nat, (s.matchesData.map renderCard)[i]? = (s.matchesData[i]?).map renderCard) ∧
      (∀ m : MatchRecord, displaysRecord (renderCard m) m) := by
  rcases hc : s.dom.matchesContainer with _ | cs
  · rw [hc] at h; cases h
  · have hload : loadMatches s = .ok
        { s with dom := { s.dom with matchesContainer := some (s.matchesData.map renderCard) } } := by
      simp [loadMatches, hc, foldl_append_eq_map]
    refine ⟨_, hload, rfl, by simp, fun i => by simp, fun m => ?_⟩
    exact ⟨"\n      <h3>", "</h3>\n      <p><strong>تاریخ:</strong> ",
      "</p>\n      <p><strong>ساعت:</strong> ",
      "</p>\n      <a href=\"javascript:void(0)\" class=\"btn-match-details\">جزئیات</a>\n    ",
      rfl⟩

/-- Claim C1 witness: rendering the startup page yields the four catalog
cards. -/
theorem loadMatches_renders_catalog_witness :
    ∃ s2, loadMatches initState = .ok s2 ∧
      s2.dom.matchesContainer = some (initState.matchesData.map renderCard) ∧
      (initState.matchesData.map renderCard).length = initState.matchesData.length ∧
      (∀ i : Nat,
        (initState.matchesData.map renderCard)[i]? = (initState.matchesData[i]?).map renderCard) ∧
      (∀ m : MatchRecord, displaysRecord (renderCard m) m) :=
  loadMatches_renders_catalog initState rfl

/-- Claim C8: calling `loadMatches` twice on a present container leaves
exactly one card per catalog record; the second call fully replaces the
first call's output, with no accumulation. -/
theorem loadMatches_idempotent (s : ScriptState)
    (h : s.dom.matchesContainer.isSome = true) :
    ∃ s2, loadMatches s = .ok s2 ∧ loadMatches s2 = .ok s2 ∧
      s2.dom.matchesContainer = some (s.matchesData.map renderCard) ∧
      (s.matchesData.map renderCard).length = s.matchesData.length := by
  rcases hc : s.dom.matchesContainer with _ | cs
  · rw [hc] at h; cases h
  · have hload : loadMatches s = .ok
        { s with dom := { s.dom with matchesContainer := some (s.matchesData.map renderCard) } } := by
      simp [loadMatches, hc, foldl_append_eq_map]
    refine ⟨_, hload, ?_, rfl, by simp⟩
    simp [loadMatches, foldl_append_eq_map]

/-- Claim C8 witness: re-rendering the startup page changes nothing. -/
theorem loadMatches_idempotent_witness :
    ∃ s2, loadMatches initState = .ok s2 ∧ loadMatches s2 = .ok s2 ∧
      s2.dom.matchesContainer = some (initState.matchesData.map renderCard) ∧
      (initState.matchesData.map renderCard).length = initState.matchesData.length :=
  loadMatches_idempotent initState rfl

/-- Claim C2 counterexample: on a page without the modal element,
`closeModal` throws a `TypeError` (dereferencing the `null` from
`getElementById("match-modal")`) instead of silently skipping. -/
theorem closeModal_missing_modal_throws :
    closeModal bareState = Except.error bareState ∧
    Except.error bareState ≠ (Except.ok bareState : Except ScriptState ScriptState) := by
  exact ⟨rfl, by simp⟩

/-- Claim C2 amended: `loadMatches` with an absent container silently
returns with the state unchanged, and `startCountdown` with an absent
countdown container schedules no timer and raises no exception; but
`showMatchDetails` (once its id is found in the catalog) throws when the
details element is absent, and `closeModal` throws when the modal element
is absent — those two operations do not guard their DOM targets. -/
theorem missing_element_behaviour :
    (∀ s : ScriptState, s.dom.matchesContainer = none → loadMatches s = .ok s) ∧
    (∀ (e : Int) (s : ScriptState), s.dom.countdownTimer = none → startCountdown e s = none) ∧
    (∀ s : ScriptState, s.dom.matchModal = none → closeModal s = .error s) ∧
    (∀ (matchId : Nat) (s : ScriptState),
      (s.matchesData.find? (fun r => r.id == matchId)).isSome = true →
      s.dom.matchDetails = none → showMatchDetails matchId s = .error s) := by
  refine ⟨?_, ?_, ?_, ?_⟩
  · intro s h; simp [loadMatches, h]
  · intro e s h; simp [startCountdown, h]
  · intro s h; simp [closeModal, h]
  · intro matchId s hf hd
    rcases hfs : s.matchesData.find? (fun r => r.id == matchId) with _ | m
    · rw [hfs] at hf; cases hf
    · simp [showMatchDetails, hfs, hd]

/-- Claim C2 witness: on the bare page, rendering and the countdown skip
silently, while closing and showing details throw. -/
theorem missing_element_behaviour_witness :
    loadMatches bareState = .ok bareState ∧
    startCountdown 0 bareState = none ∧
    closeModal bareState = .error bareState ∧
    showMatchDetails 1 bareState = .error bareState :=
  ⟨missing_element_behaviour.1 bareState rfl,
   missing_element_behaviour.2.1 0 bareState rfl,
   missing_element_behaviour.2.2.1 bareState rfl,
   missing_element_behaviour.2.2.2 1 bareState (by decide) rfl⟩

/-- Claim C3: for an id present in the catalog (whose ids are distinct) and
present modal elements, `showMatchDetails` makes the modal visible
(`display = "block"`) and replaces the content region with exactly that
record's teams heading, date line, time line, description paragraph and a
frame sourced at its `liveStreamLink`. -/
theorem showMatchDetails_found (s : ScriptState) (matchId : Nat) (m : MatchRecord)
    (hm : m ∈ s.matchesData) (hid : m.id = matchId)
    (hnd : (s.matchesData.map MatchRecord.id).Nodup)
    (hdet : s.dom.matchDetails.isSome = true)
    (hmod : s.dom.matchModal.isSome = true) :
    ∃ s2, showMatchDetails matchId s = .ok s2 ∧
      s2.dom.matchModal = some "block" ∧
      s2.dom.matchDetails = some (detailsHTML m) ∧
      showsRecord (detailsHTML m) m := by
  have hf := find?_eq_some_of_mem_nodup s.matchesData m matchId hm hid hnd
  rcases hd : s.dom.matchDetails with _ | x
  · rw [hd] at hdet; cases hdet
  · rcases hmo : s.dom.matchModal with _ | y
    · rw [hmo] at hmod; cases hmod
    · have hshow : showMatchDetails matchId s = .ok
          { s with dom := { s.dom with
              matchDetails := some (detailsHTML m), matchModal := some "block" } } := by
        simp [showMatchDetails, hf, hd, hmo]
      refine ⟨_, hshow, rfl, rfl, ?_⟩
      exact ⟨"\n    <h2>", "</h2>\n    <p><strong>تاریخ:</strong> ",
        "</p>\n    <p><strong>ساعت:</strong> ", "</p>\n    <p>",
        "</p>\n    <h3>پخش زنده</h3>\n    <iframe \n      src=\"",
        "\" \n      width=\"100%\" \n      height=\"360\" \n      allowfullscreen>\n    </iframe>\n  ",
        rfl⟩

/-- Claim C3 witness: showing match 1 on the startup page opens the modal on
the first record's details. -/
theorem showMatchDetails_found_witness :
    ∃ s2, showMatchDetails 1 initState = .ok s2 ∧
      s2.dom.matchModal = some "block" ∧
      s2.dom.matchDetails = some (detailsHTML (matchesData.get ⟨0, by decide⟩)) ∧
      showsRecord (detailsHTML (matchesData.get ⟨0, by decide⟩)) (matchesData.get ⟨0, by decide⟩) :=
  showMatchDetails_found initState 1 (matchesData.get ⟨0, by decide⟩)
    (by decide) (by decide) (by decide) rfl rfl

/-- Claim C4: for an id not present in the catalog, `showMatchDetails` is a
silent no-op — it returns normally with the state (modal visibility and
content region included) unchanged. -/
theorem showMatchDetails_not_found (s : ScriptState) (matchId : Nat)
    (h : ∀ m ∈ s.matchesData, m.id ≠ matchId) :
    showMatchDetails matchId s = .ok s := by
  have hf : s.matchesData.find? (fun r => r.id == matchId) = none :=
    List.find?_eq_none.mpr (fun x hx => by simp [h x hx])
  simp [showMatchDetails, hf]

/-- Claim C4 witness: id 99 is in no record, and showing it on the startup
page changes nothing. -/
theorem showMatchDetails_not_found_witness :
    showMatchDetails 99 initState = .ok initState :=
  showMatchDetails_not_found initState 99 (by decide)

/-- Claim C5: with the modal elements present, `closeModal` hides the modal
(`display = "none"`) and empties the content region (removing the stream
frame); calling it again on the result returns the result unchanged. -/
theorem closeModal_clears (s : ScriptState)
    (hmod : s.dom.matchModal.isSome = true)
    (hdet : s.dom.matchDetails.isSome = true) :
    ∃ s2, closeModal s = .ok s2 ∧
      s2.dom.matchModal = some "none" ∧
      s2.dom.matchDetails = some "" ∧
      closeModal s2 = .ok s2 := by
  rcases hmo : s.dom.matchModal with _ | y
  · rw [hmo] at hmod; cases hmod
  · rcases hd : s.dom.matchDetails with _ | x
    · rw [hd] at hdet; cases hdet
    · have hclose : closeModal s = .ok
          { s with dom := { s.dom with
              matchDetails := some "", matchModal := some "none" } } := by
        simp [closeModal, hmo, hd]
      exact ⟨_, hclose, rfl, rfl, rfl⟩

/-- Claim C5 witness: closing the modal on the startup page hides it and
clears the detail region; closing again changes nothing. -/
theorem closeModal_clears_witness :
    ∃ s2, closeModal initState = .ok s2 ∧
      s2.dom.matchModal = some "none" ∧
      s2.dom.matchDetails = some "" ∧
      closeModal s2 = .ok s2 :=
  closeModal_clears initState rfl rfl

/-- Claim C6: on a tick with nonnegative remaining distance and present
display slots, the four displayed components are the rounded-down quotients
days = distance / 86400000, hours = (distance mod 86400000) / 3600000,
minutes = (distance mod 3600000) / 60000, seconds = (distance mod 60000) /
1000, each written to its slot, with no rounding up. -/
theorem countdownTick_decomposes (endDate now : Int) (c : CountdownState)
    (hact : c.intervalActive = true) (hpos : 0 ≤ endDate - now)
    (hd1 : c.state.dom.days.isSome = true) (hh1 : c.state.dom.hours.isSome = true)
    (hm1 : c.state.dom.minutes.isSome = true) (hs1 : c.state.dom.seconds.isSome = true) :
    ∃ c2, countdownTick endDate now c = .ok c2 ∧
      c2.intervalActive = true ∧
      c2.state.dom.days = some (toString ((endDate - now) / (1000 * 60 * 60 * 24))) ∧
      c2.state.dom.hours =
        some (toString (((endDate - now) % (1000 * 60 * 60 * 24)) / (1000 * 60 * 60))) ∧
      c2.state.dom.minutes =
        some (toString (((endDate - now) % (1000 * 60 * 60)) / (1000 * 60))) ∧
      c2.state.dom.seconds = some (toString (((endDate - now) % (1000 * 60)) / 1000)) ∧
      c2.state.dom.countdownTimer = c.state.dom.countdownTimer ∧
      floorDivOf ((endDate - now) / (1000 * 60 * 60 * 24))
        (endDate - now) (1000 * 60 * 60 * 24) ∧
      floorDivOf (((endDate - now) % (1000 * 60 * 60 * 24)) / (1000 * 60 * 60))
        ((endDate - now) % (1000 * 60 * 60 * 24)) (1000 * 60 * 60) ∧
      floorDivOf (((endDate - now) % (1000 * 60 * 60)) / (1000 * 60))
        ((endDate - now) % (1000 * 60 * 60)) (1000 * 60) ∧
      floorDivOf (((endDate - now) % (1000 * 60)) / 1000)
        ((endDate - now) % (1000 * 60)) 1000 := by
  have hnneg : ¬ (endDate - now < 0) := not_lt.mpr hpos
  rcases hd : c.state.dom.days with _ | dv
  · rw [hd] at hd1; cases hd1
  rcases hh : c.state.dom.hours with _ | hv
  · rw [hh] at hh1; cases hh1
  rcases hm : c.state.dom.minutes with _ | mv
  · rw [hm] at hm1; cases hm1
  rcases hs : c.state.dom.seconds with _ | sv
  · rw [hs] at hs1; cases hs1
  have htick : countdownTick endDate now c = .ok
      { c with state := { c.state with dom := { c.state.dom with
          days := some (toString ((endDate - now) / (1000 * 60 * 60 * 24))),
          hours := some (toString (((endDate - now) % (1000 * 60 * 60 * 24)) / (1000 * 60 * 60))),
          minutes := some (toString (((endDate - now) % (1000 * 60 * 60)) / (1000 * 60))),
          seconds := some (toString (((endDate - now) % (1000 * 60)) / 1000)) } } } := by
    simp [countdownTick, hact, hnneg, hd, hh, hm, hs]
  refine ⟨_, htick, hact, rfl, rfl, rfl, rfl, rfl, ?_, ?_, ?_, ?_⟩ <;>
    · refine ⟨?_, ?_, ?_⟩ <;> omega

/-- Claim C6 witness: with the target 90 seconds away, the first tick
displays 0 days, 0 hours, 1 minute, 30 seconds. -/
theorem countdownTick_decomposes_witness :
    ∃ c2, countdownTick 90000 0 runState = .ok c2 ∧ c2.intervalActive = true ∧
      c2.state.dom.days = some "0" ∧ c2.state.dom.hours = some "0" ∧
      c2.state.dom.minutes = some "1" ∧ c2.state.dom.seconds = some "30" := by
  obtain ⟨c2, h1, h2, h3, h4, h5, h6, -, -, -, -, -⟩ :=
    countdownTick_decomposes 90000 0 runState rfl (by decide) rfl rfl rfl rfl
  exact ⟨c2, h1, h2, by rw [h3]; rfl, by rw [h4]; rfl, by rw [h5]; rfl, by rw [h6]; rfl⟩

/-- Claim C7: a tick that observes a strictly negative remaining distance
clears the interval permanently and writes the fixed "event has started"
message; every later tick of that timer returns the state unchanged. -/
theorem countdownTick_terminal (endDate now : Int) (c : CountdownState)
    (hact : c.intervalActive = true) (hneg : endDate - now < 0) :
    ∃ c2, countdownTick endDate now c = .ok c2 ∧
      c2.intervalActive = false ∧
      c2.state.dom.countdownTimer = some startedMessage ∧
      ∀ e2 n2 : Int, countdownTick e2 n2 c2 = .ok c2 := by
  have htick : countdownTick endDate now c = .ok
      { intervalActive := false,
        state := { c.state with dom := { c.state.dom with
          countdownTimer := some startedMessage } } } := by
    simp [countdownTick, hact, hneg]
  exact ⟨_, htick, rfl, rfl, fun e2 n2 => rfl⟩

/-- Claim C7 witness: one second past the target, the tick stops the timer
and fixes the display; further ticks change nothing. -/
theorem countdownTick_terminal_witness :
    ∃ c2, countdownTick 0 1 runState = .ok c2 ∧
      c2.intervalActive = false ∧
      c2.state.dom.countdownTimer = some startedMessage ∧
      ∀ e2 n2 : Int, countdownTick e2 n2 c2 = .ok c2 :=
  countdownTick_terminal 0 1 runState rfl (by decide)

/-- Claim C10: a tick at exactly the target instant (distance zero) does not
enter the terminal state: the interval stays active, the countdown container
keeps its content, and all four slots display zero. -/
theorem countdownTick_at_zero (endDate now : Int) (c : CountdownState)
    (hact : c.intervalActive = true) (h0 : endDate - now = 0)
    (hd1 : c.state.dom.days.isSome = true) (hh1 : c.state.dom.hours.isSome = true)
    (hm1 : c.state.dom.minutes.isSome = true) (hs1 : c.state.dom.seconds.isSome = true) :
    ∃ c2, countdownTick endDate now c = .ok c2 ∧
      c2.intervalActive = true ∧
      c2.state.dom.countdownTimer = c.state.dom.countdownTimer ∧
      c2.state.dom.days = some "0" ∧ c2.state.dom.hours = some "0" ∧
      c2.state.dom.minutes = some "0" ∧ c2.state.dom.seconds = some "0" := by
  rcases hd : c.state.dom.days with _ | dv
  · rw [hd] at hd1; cases hd1
  rcases hh : c.state.dom.hours with _ | hv
  · rw [hh] at hh1; cases hh1
  rcases hm : c.state.dom.minutes with _ | mv
  · rw [hm] at hm1; cases hm1
  rcases hs : c.state.dom.seconds with _ | sv
  · rw [hs] at hs1; cases hs1
  have htick : countdownTick endDate now c = .ok
      { c with state := { c.state with dom := { c.state.dom with
          days := some "0", hours := some "0",
          minutes := some "0", seconds := some "0" } } } := by
    have h00 : toString (0 : Int) = "0" := rfl
    simp [countdownTick, hact, h0, hd, hh, hm, hs, h00]
  exact ⟨_, htick, hact, rfl, rfl, rfl, rfl, rfl⟩

/-- Claim C10 witness: a tick with target equal to now displays four zeros
and keeps the timer running. -/
theorem countdownTick_at_zero_witness :
    ∃ c2, countdownTick 5 5 runState = .ok c2 ∧
      c2.intervalActive = true ∧
      c2.state.dom.countdownTimer = runState.state.dom.countdownTimer ∧
      c2.state.dom.days = some "0" ∧ c2.state.dom.hours = some "0" ∧
      c2.state.dom.minutes = some "0" ∧ c2.state.dom.seconds = some "0" :=
  countdownTick_at_zero 5 5 runState rfl (by decide) rfl rfl rfl rfl

/-- Claim C9: the catalog ids are pairwise distinct, and no operation of the
script — rendering, showing or closing the modal, starting the countdown, a
countdown tick, or any wired event handler — ever changes the catalog,
whether it returns normally or throws. -/
theorem catalog_invariant :
    (matchesData.map MatchRecord.id).Nodup ∧
    (∀ s : ScriptState, (resultState (loadMatches s)).matchesData = s.matchesData) ∧
    (∀ (i : Nat) (s : ScriptState),
      (resultState (showMatchDetails i s)).matchesData = s.matchesData) ∧
    (∀ s : ScriptState, (resultState (closeModal s)).matchesData = s.matchesData) ∧
    (∀ (e : Int) (s : ScriptState), (startCountdownState e s).matchesData = s.matchesData) ∧
    (∀ (e n : Int) (c : CountdownState),
      (tickResultState (countdownTick e n c)).state.matchesData = c.state.matchesData) ∧
    (∀ s : ScriptState, (resultState (onCloseButtonClick s)).matchesData = s.matchesData) ∧
    (∀ (b : Bool) (s : ScriptState),
      (resultState (onModalClick b s)).matchesData = s.matchesData) ∧
    (∀ (k : Card) (s : ScriptState),
      (resultState (onDetailsClick k s)).matchesData = s.matchesData) := by
  have hshow : ∀ (i : Nat) (s : ScriptState),
      (resultState (showMatchDetails i s)).matchesData = s.matchesData := by
    intro i s
    rcases hf : s.matchesData.find? (fun m => m.id == i) with _ | m
    · simp [showMatchDetails, hf, resultState]
    · rcases hd : s.dom.matchDetails with _ | x
      · simp [showMatchDetails, hf, hd, resultState]
      · rcases hmo : s.dom.matchModal with _ | y <;>
          simp [showMatchDetails, hf, hd, hmo, resultState]
  have hclose : ∀ s : ScriptState, (resultState (closeModal s)).matchesData = s.matchesData := by
    intro s
    rcases hmo : s.dom.matchModal with _ | y
    · simp [closeModal, hmo, resultState]
    · rcases hd : s.dom.matchDetails with _ | x <;>
        simp [closeModal, hmo, hd, resultState]
  refine ⟨by decide, ?_, hshow, hclose, ?_, ?_, hclose, ?_, ?_⟩
  · intro s
    rcases hc : s.dom.matchesContainer with _ | cs <;>
      simp [loadMatches, hc, resultState]
  · intro e s
    rcases hc : s.dom.countdownTimer with _ | x <;>
      simp [startCountdownState, startCountdown, hc]
  · intro e n c
    by_cases hact : c.intervalActive = false
    · simp [countdownTick, hact, tickResultState]
    · by_cases hlt : e - n < 0
      · simp [countdownTick, hact, hlt, tickResultState]
      · rcases hd : c.state.dom.days with _ | dv
        · simp [countdownTick, hact, hlt, hd, tickResultState]
        · rcases hh : c.state.dom.hours with _ | hv
          · simp [countdownTick, hact, hlt, hd, hh, tickResultState]
          · rcases hm : c.state.dom.minutes with _ | mv
            · simp [countdownTick, hact, hlt, hd, hh, hm, tickResultState]
            · rcases hs : c.state.dom.seconds with _ | sv <;>
                simp [countdownTick, hact, hlt, hd, hh, hm, hs, tickResultState]
  · intro b s
    cases b
    · simp [onModalClick, resultState]
    · simpa [onModalClick] using hclose s
  · intro k s
    exact hshow k.detailsOnClick s
